import Mathlib

/-!
Verification development for the unical repository: a calendar-unification layer
consisting of a connector dispatch registry (`Unical` in the index file) and
per-backend connectors (`GoogleCalConnector` in lib/unical-google.js, a later
`GoogleConnector` revision, and `CronofyConnector` in lib/unical-cronofy.js)
that map upstream calendar and event payloads into a unified resource shape.

JavaScript conventions used throughout the embedding:
  * an absent (`undefined`) or `null` field is `Option.none`;
  * string truthiness: the empty string is falsy, every other string truthy;
  * an absent boolean option is falsy.
-/

/-- JS string truthiness applied to a possibly absent string: `undefined`, `null`
and the empty string are falsy. -/
def jsTruthyStr : Option String → Bool
  | none => false
  | some s => !(s == "")

/-- JS truthiness of a possibly absent boolean flag. -/
def jsTruthyBool : Option Bool → Bool
  | none => false
  | some b => b

/-- JS `x || ''` on a possibly absent string. -/
def jsOrEmpty (s : Option String) : String :=
  if jsTruthyStr s then s.getD "" else ""

/-- JS `x || null` on a possibly absent string: the empty string collapses to null. -/
def jsOrNull (s : Option String) : Option String :=
  if jsTruthyStr s then s else none

/-- JS `String.prototype.toLowerCase` restricted to the ASCII names used by the
registry (`Char.toLower` lower-cases exactly the ASCII uppercase letters). -/
def jsToLowerCase (s : String) : String :=
  String.mk (s.data.map Char.toLower)

/-- Caller-supplied options object, modelled as the finite set of boolean
properties actually set on it; reading any other property yields `undefined`. -/
abbrev JsOptions := List (String × Bool)

/-- Property read on an options object: `none` models `undefined`. -/
def jsGetBool (options : JsOptions) (k : String) : Option Bool :=
  (options.find? (fun p => p.1 == k)).map (fun p => p.2)

/-! ## Dispatch registry (`Unical` class, index file)

A connector is its `name` together with the table of methods it implements
(the model of its function-valued properties). The registry is the `Map` held
under the `connectors` symbol, keyed by lower-cased connector name.
Method payloads are polymorphic in a value type `α`. -/

structure Connector (α : Type) where
  name : String
  methods : List (String × (List α → α))

/-- `methodName in connector` followed by the property read. -/
def findMethod {α : Type} (c : Connector α) (methodName : String) : Option (List α → α) :=
  (c.methods.find? (fun p => p.1 == methodName)).map (fun p => p.2)

/-- The registry `Map`, as an association list with `Map.set` semantics. -/
abbrev Registry (α : Type) := List (String × Connector α)

/-- `Map.prototype.get`. -/
def registryGet {α : Type} (reg : Registry α) (k : String) : Option (Connector α) :=
  (reg.find? (fun p => p.1 == k)).map (fun p => p.2)

/-- `Map.prototype.set`: overwrite an existing key, else append. -/
def registrySet {α : Type} (reg : Registry α) (k : String) (c : Connector α) :
    Registry α :=
  if reg.any (fun p => p.1 == k) then
    reg.map (fun p => if p.1 == k then (k, c) else p)
  else
    reg ++ [(k, c)]

/-- Registration failures of `Unical.use` (ConfigurationError in the spec
taxonomy): the connector argument is absent, or its `name` is falsy. -/
inductive UseError
  | noConnector
  | noName
deriving DecidableEq

/-- `Unical.use(connector)`: store the connector keyed by its lower-cased name. -/
def use {α : Type} (reg : Registry α) (connector : Option (Connector α)) :
    Except UseError (Registry α) :=
  match connector with
  | none => .error .noConnector
  | some c =>
      if c.name == "" then .error .noName
      else .ok (registrySet reg (jsToLowerCase c.name) c)

/-- `Unical.listConnectors()`: the stored (lower-cased) keys. -/
def listConnectors {α : Type} (reg : Registry α) : List String :=
  reg.map (fun p => p.1)

/-- Dispatch failures of `Unical.callMethod`. The first two carry the messages
of the source throws `You should specify a connector name!` and
`Unknown connector: ...` (NotFoundError in the spec taxonomy); the third is the
`This connector does not implement ...()` throw (UnsupportedOperationError). -/
inductive DispatchError
  | noConnectorName
  | unknownConnector (connectorName : String)
  | unsupportedMethod (methodName : String)
deriving DecidableEq

/-- Classification of a `DispatchError` under the spec taxonomy: the
missing-name and unknown-connector throws are NotFoundError. -/
def isNotFoundError : DispatchError → Bool
  | .noConnectorName => true
  | .unknownConnector _ => true
  | .unsupportedMethod _ => false

/-- `Unical.callMethod(connectorName, methodName, ...args)`: validate the name,
look the connector up by lower-cased name, probe the method, and invoke it with
the remaining arguments. -/
def callMethod {α : Type} (reg : Registry α) (connectorName methodName : String)
    (args : List α) : Except DispatchError α :=
  if connectorName == "" then .error .noConnectorName
  else
    match registryGet reg (jsToLowerCase connectorName) with
    | none => .error (.unknownConnector connectorName)
    | some c =>
        match findMethod c methodName with
        | none => .error (.unsupportedMethod methodName)
        | some f => .ok (f args)

/-- C1: dispatch fails with a NotFoundError when the connector name is empty or
unregistered under its lower-cased form, regardless of the method; it fails with
an UnsupportedOperationError when the resolved connector lacks the method; and
otherwise it returns the method applied once to the remaining arguments,
unchanged. Lookup is case-insensitive: any name with the same lower-casing as a
successfully dispatched name dispatches to the identical result. -/
theorem C1_dispatch {α : Type} (reg : Registry α) (connectorName methodName : String)
    (args : List α) :
    (connectorName = "" →
      callMethod reg connectorName methodName args = .error .noConnectorName ∧
      isNotFoundError .noConnectorName = true) ∧
    (connectorName ≠ "" → registryGet reg (jsToLowerCase connectorName) = none →
      callMethod reg connectorName methodName args =
        .error (.unknownConnector connectorName) ∧
      isNotFoundError (.unknownConnector connectorName) = true) ∧
    (∀ c, connectorName ≠ "" →
      registryGet reg (jsToLowerCase connectorName) = some c →
      findMethod c methodName = none →
      callMethod reg connectorName methodName args =
        .error (.unsupportedMethod methodName)) ∧
    (∀ c f, connectorName ≠ "" →
      registryGet reg (jsToLowerCase connectorName) = some c →
      findMethod c methodName = some f →
      callMethod reg connectorName methodName args = .ok (f args)) ∧
    (∀ otherName r, otherName ≠ "" →
      jsToLowerCase otherName = jsToLowerCase connectorName →
      callMethod reg connectorName methodName args = .ok r →
      callMethod reg otherName methodName args = .ok r) := by
  refine ⟨?_, ?_, ?_, ?_, ?_⟩
  · intro h
    subst h
    exact ⟨by simp [callMethod], rfl⟩
  · intro hne hnone
    refine ⟨?_, rfl⟩
    simp only [callMethod, beq_iff_eq, if_neg hne, hnone]
  · intro c hne hsome hnom
    simp only [callMethod, beq_iff_eq, if_neg hne, hsome, hnom]
  · intro c f hne hsome hf
    simp only [callMethod, beq_iff_eq, if_neg hne, hsome, hf]
  · intro otherName r hother hlow hok
    by_cases hne : connectorName = ""
    · subst hne
      simp [callMethod] at hok
    · rcases hc : registryGet reg (jsToLowerCase connectorName) with _ | c
      · simp only [callMethod, beq_iff_eq, if_neg hne, hc] at hok
        exact (Except.noConfusion hok)
      · rcases hf : findMethod c methodName with _ | f
        · simp only [callMethod, beq_iff_eq, if_neg hne, hc, hf] at hok
          exact (Except.noConfusion hok)
        · simp only [callMethod, beq_iff_eq, if_neg hne, hc, hf, Except.ok.injEq] at hok
          simp only [callMethod, beq_iff_eq, if_neg hother, hlow, hc, hf, hok]

/-- A registered connector used to witness C1, as in the spec scenario of
registering a connector named `Google`. -/
def connGoogle : Connector Nat :=
  { name := "Google"
    methods := [("listEvents", fun args => args.foldl (· + ·) 0)] }

/-- The registry after `use` stored `connGoogle` under its lower-cased name. -/
def sampleRegistry : Registry Nat := registrySet [] "google" connGoogle

theorem C1_dispatch_witness :
    callMethod sampleRegistry "GOOGLE" "listEvents" [2, 3] = .ok 5 := by
  have h := (C1_dispatch sampleRegistry "Google" "listEvents" [2, 3]).2.2.2.2
  exact h "GOOGLE" 5 (by decide) (by decide) rfl

/-! ## Google Calendar native payloads

The native Google Calendar API shapes consumed by both direct-provider
connector revisions (`GoogleCalConnector` in lib/unical-google.js and the
`GoogleConnector` revision). Every field an absent-able JS property. -/

structure GDateTime where
  dateTime : Option String := none
  date : Option String := none
deriving DecidableEq

structure GEntryPoint where
  entryPointType : Option String := none
  uri : Option String := none
deriving DecidableEq

structure GConferenceData where
  entryPoints : Option (List GEntryPoint) := none
deriving DecidableEq

structure GAttendee where
  email : Option String := none
  displayName : Option String := none
  responseStatus : Option String := none
deriving DecidableEq

structure GOrganizer where
  email : Option String := none
  displayName : Option String := none
deriving DecidableEq

structure GoogleEvent where
  id : Option String := none
  summary : Option String := none
  description : Option String := none
  status : Option String := none
  created : Option String := none
  updated : Option String := none
  location : Option String := none
  visibility : Option String := none
  transparency : Option String := none
  start : Option GDateTime := none
  «end» : Option GDateTime := none
  conferenceData : Option GConferenceData := none
  attendees : Option (List GAttendee) := none
  organizer : Option GOrganizer := none
deriving DecidableEq

/-- The `{ id: googleCalParams.calendarId }` reference both revisions pass as
the second argument of `_transformEvent`. -/
structure GCalendarRef where
  id : Option String := none
deriving DecidableEq

/-! ## Field-mapper helpers shared by both Google revisions -/

/-- `_parseAccessRoleToReadOnly`: switch over the access role, default true. -/
def parseAccessRoleToReadOnly (accessRole : Option String) : Bool :=
  match accessRole with
  | some "freeBusyReader" => true
  | some "reader" => true
  | some "writer" => false
  | some "owner" => false
  | _ => true

/-- `_parseVisibilityToPrivate`: switch over the visibility, default true. -/
def parseVisibilityToPrivate (visibility : Option String) : Bool :=
  match visibility with
  | some "private" => true
  | some "confidential" => true
  | some "default" => false
  | some "public" => false
  | _ => true

/-- `_parseConferenceUrlFromConferenceData`, identical in both Google
revisions. The source iterates `conferenceData?.entryPoints?` with `forEach`;
the `return entryPoint.uri` inside the callback only returns from the callback,
and `forEach` discards every callback result, so control always reaches the
final `return null`. The embedding computes the discarded callback results and
returns `none`, mirroring the source exactly. -/
def parseConferenceUrlFromConferenceData (conferenceData : Option GConferenceData) :
    Option String :=
  let scanned := ((conferenceData.bind GConferenceData.entryPoints).getD []).map
    (fun entryPoint =>
      if entryPoint.entryPointType == some "video" then entryPoint.uri else none)
  let _ := scanned
  none

/-- Modelled from the spec: the intended conference-URL extraction, `return the
URI of the first video-type entry point, or null if none`, which the iteration
construct in `_parseConferenceUrlFromConferenceData` fails to implement (its
early return does not escape the scan). Stated for comparison with the source
embedding above. -/
def parseConferenceUrlIntended (conferenceData : Option GConferenceData) :
    Option String :=
  (((conferenceData.bind GConferenceData.entryPoints).getD []).find?
    (fun entryPoint => entryPoint.entryPointType == some "video")).bind GEntryPoint.uri

/-! ## Unified event resources produced by the two Google revisions -/

/-- The `options` object of the Google unified event (note: the source places
the three permission booleans under the key `options`, not `permissions`). -/
structure GEventOptions where
  delete : Bool
  update : Bool
  change_participation_status : Bool
deriving DecidableEq

/-- Attendee produced by `GoogleCalConnector._transformEvent` (lib/unical-google.js):
`display_name` is the native `displayName` unchanged, possibly absent. -/
structure UAttendeeV1 where
  email : Option String := none
  display_name : Option String := none
  status : Option String := none
deriving DecidableEq

structure UPersonV1 where
  email : Option String := none
  display_name : Option String := none
deriving DecidableEq

/-- Attendee produced by the later `GoogleConnector._transformEvent` revision:
`display_name` defaults to the empty string via `|| ''`. -/
structure UAttendeeV2 where
  email : Option String := none
  display_name : String := ""
  status : Option String := none
deriving DecidableEq

structure UPersonV2 where
  email : Option String := none
  display_name : String := ""
deriving DecidableEq

/-- Unified event shape built by `GoogleCalConnector._transformEvent`
(lib/unical-google.js lines 437-475). `attendees` is `Option` because the
source maps through `googleEvent.attendees?.map(...)` with no default: a
missing native `attendees` propagates as `undefined`. -/
structure GoogleUnifiedEventV1 where
  id : Option String
  calendar_id : Option String
  meeting_url : Option String
  summary : Option String
  description : Option String
  start : Option String
  «end» : Option String
  deleted : Bool
  created : Option String
  updated : Option String
  location : Option String
  participation_status : String
  attendees : Option (List UAttendeeV1)
  organizer : UPersonV1
  transparency : Option String
  status : Option String
  categories : List String
  recurring : Bool
  «private» : Bool
  options : GEventOptions
  next_page_token : Option String
deriving DecidableEq

/-- `GoogleCalConnector._transformEvent` (lib/unical-google.js lines 437-475). -/
def transformEventV1 (googleEvent : GoogleEvent) (googleCalendar : GCalendarRef) :
    GoogleUnifiedEventV1 :=
  { id := googleEvent.id
    calendar_id := googleCalendar.id
    meeting_url := parseConferenceUrlFromConferenceData googleEvent.conferenceData
    summary := googleEvent.summary
    description := googleEvent.description
    start := googleEvent.start.bind GDateTime.dateTime
    «end» := googleEvent.«end».bind GDateTime.dateTime
    deleted := googleEvent.status == some "cancelled"
    created := googleEvent.created
    updated := googleEvent.updated
    location := googleEvent.location
    participation_status := "needs_action"
    attendees := googleEvent.attendees.map (List.map (fun attendee =>
      { email := attendee.email
        display_name := attendee.displayName
        status := attendee.responseStatus }))
    organizer :=
      { email := googleEvent.organizer.bind GOrganizer.email
        display_name := googleEvent.organizer.bind GOrganizer.displayName }
    transparency := googleEvent.transparency
    status := googleEvent.status
    categories := []
    recurring := false
    «private» := parseVisibilityToPrivate googleEvent.visibility
    options := { delete := true, update := true, change_participation_status := true }
    next_page_token := none }

/-- Unified event shape built by the later `GoogleConnector._transformEvent`
revision (lines 547-585 of that file): `attendees` always a list via `|| []`,
display names defaulted to the empty string, `transparency` via `|| null`. -/
structure GoogleUnifiedEventV2 where
  id : Option String
  calendar_id : Option String
  meeting_url : Option String
  summary : Option String
  description : Option String
  start : Option String
  «end» : Option String
  deleted : Bool
  created : Option String
  updated : Option String
  location : Option String
  participation_status : String
  attendees : List UAttendeeV2
  organizer : UPersonV2
  transparency : Option String
  status : Option String
  categories : List String
  recurring : Bool
  «private» : Bool
  options : GEventOptions
  next_page_token : Option String
deriving DecidableEq

/-- The later `GoogleConnector._transformEvent(googleEvent, googleCalendar, params)`
revision. `params` carries the `next_page_token` the list call threads through;
the source ignores it and writes `next_page_token: null`. The `start` and `end`
fields are embedded exactly as written in the source: both ternaries test and
read `googleEvent.start`, so the unified `end` is computed from the native
`start` field. -/
def transformEventV2 (googleEvent : GoogleEvent) (googleCalendar : GCalendarRef)
    (params : Option String) : GoogleUnifiedEventV2 :=
  let _ := params
  { id := googleEvent.id
    calendar_id := googleCalendar.id
    meeting_url := parseConferenceUrlFromConferenceData googleEvent.conferenceData
    summary := googleEvent.summary
    description := googleEvent.description
    start :=
      if jsTruthyStr (googleEvent.start.bind GDateTime.dateTime) then
        googleEvent.start.bind GDateTime.dateTime
      else
        googleEvent.start.bind GDateTime.date
    «end» :=
      if jsTruthyStr (googleEvent.start.bind GDateTime.dateTime) then
        googleEvent.start.bind GDateTime.dateTime
      else
        googleEvent.start.bind GDateTime.date
    deleted := googleEvent.status == some "cancelled"
    created := googleEvent.created
    updated := googleEvent.updated
    location := googleEvent.location
    participation_status := "needs_action"
    attendees := (googleEvent.attendees.map (List.map (fun attendee =>
      ({ email := attendee.email
         display_name := jsOrEmpty attendee.displayName
         status := attendee.responseStatus } : UAttendeeV2)))).getD []
    organizer :=
      { email := googleEvent.organizer.bind GOrganizer.email
        display_name := jsOrEmpty (googleEvent.organizer.bind GOrganizer.displayName) }
    transparency := jsOrNull googleEvent.transparency
    status := googleEvent.status
    categories := []
    recurring := false
    «private» := parseVisibilityToPrivate googleEvent.visibility
    options := { delete := true, update := true, change_participation_status := true }
    next_page_token := none }

/-! ## Cronofy native payload and unified event (lib/unical-cronofy.js) -/

structure CAttendee where
  email : Option String := none
  display_name : Option String := none
  status : Option String := none
deriving DecidableEq

structure COrganizer where
  email : Option String := none
  display_name : Option String := none
deriving DecidableEq

structure CLocation where
  description : Option String := none
deriving DecidableEq

structure CEventOptions where
  delete : Option Bool := none
  update : Option Bool := none
  change_participation_status : Option Bool := none
deriving DecidableEq

structure CronofyEvent where
  event_uid : Option String := none
  calendar_id : Option String := none
  meeting_url : Option String := none
  summary : Option String := none
  description : Option String := none
  start : Option String := none
  «end» : Option String := none
  deleted : Option Bool := none
  created : Option String := none
  updated : Option String := none
  location : Option CLocation := none
  participation_status : Option String := none
  attendees : Option (List CAttendee) := none
  organizer : Option COrganizer := none
  transparency : Option String := none
  status : Option String := none
  recurring : Option Bool := none
  event_private : Option Bool := none
  options : Option CEventOptions := none
  next_page_token : Option String := none
deriving DecidableEq

structure CronofyUnifiedEvent where
  id : Option String
  calendar_id : Option String
  meeting_url : Option String
  summary : Option String
  description : Option String
  start : Option String
  «end» : Option String
  deleted : Option Bool
  created : Option String
  updated : Option String
  location : Option String
  participation_status : Option String
  attendees : List CAttendee
  organizer : COrganizer
  transparency : Option String
  status : Option String
  categories : List String
  recurring : Option Bool
  «private» : Option Bool
  permissions : CEventOptions
  next_page_token : Option String
deriving DecidableEq

/-- A thrown JS runtime error. -/
inductive JsError
  | typeError
deriving DecidableEq

/-- `CronofyConnector._transformEvent` (lib/unical-cronofy.js lines 357-396).
The source dereferences `data.attendees.map(...)`, `data.organizer.email` and
`data.options.delete` without guards, so a payload missing any of those three
objects makes the mapping throw a TypeError; the `|| []` after the attendee
`.map` call is dead, because an array (empty included) is always truthy. -/
def cronofyTransformEvent (data : CronofyEvent) : Except JsError CronofyUnifiedEvent :=
  match data.attendees, data.organizer, data.options with
  | some attendees, some organizer, some options =>
      .ok
        { id := data.event_uid
          calendar_id := data.calendar_id
          meeting_url := data.meeting_url
          summary := data.summary
          description := data.description
          start := data.start
          «end» := data.«end»
          deleted := data.deleted
          created := data.created
          updated := data.updated
          location := data.location.bind CLocation.description
          participation_status := data.participation_status
          attendees := attendees.map (fun attendee =>
            { email := attendee.email
              display_name := attendee.display_name
              status := attendee.status })
          organizer :=
            { email := organizer.email
              display_name := organizer.display_name }
          transparency := data.transparency
          status := data.status
          categories := []
          recurring := data.recurring
          «private» := data.event_private
          permissions :=
            { delete := options.delete
              update := options.update
              change_participation_status := options.change_participation_status }
          next_page_token := data.next_page_token }
  | _, _, _ => .error .typeError

/-! ## GoogleCalConnector.getEvent result selection (lib/unical-google.js)

The callback delivers either the raw upstream record or the unified shape.
The source selects with `options.rax ? res.data : this._transformEvent(...)`:
it reads the property `rax`, which no caller sets and the JSDoc does not
document (the documented flag is `raw`), so the condition is the truthiness of
an absent property. -/

inductive GetEventResult
  | raw (data : GoogleEvent)
  | unified (event : GoogleUnifiedEventV1)
deriving DecidableEq

/-- The value `GoogleCalConnector.getEvent` hands to its callback on a
successful upstream fetch (lib/unical-google.js line 129). -/
def googleCalGetEventResult (options : JsOptions) (data : GoogleEvent)
    (calendarId : Option String) : GetEventResult :=
  if jsTruthyBool (jsGetBool options "rax") then .raw data
  else .unified (transformEventV1 data { id := calendarId })

/-! ## Error-first callback invocations (Google connector revisions)

A node-style completion callback receives an error argument and a result
argument. `CbInvocation` records exactly which values the source passes in each
position; the result position may hold either an upstream error value or a
proper result, since the source's `callback(null, err)` pattern places errors
there. -/

structure CbInvocation (ε ρ : Type) where
  errArg : Option ε
  resArg : Option (ε ⊕ ρ)
deriving DecidableEq

/-- The successful or error value delivered by `GoogleCalConnector.listEvents`. -/
inductive ListEventsValue
  | emptyList
  | rawItems (items : List GoogleEvent)
  | unified (events : List GoogleUnifiedEventV1) (next_page_token : Option String)
deriving DecidableEq

/-- The `data` object of a Google `events.list` response. -/
structure GListResponse where
  items : Option (List GoogleEvent) := none
  nextPageToken : Option String := none
deriving DecidableEq

/-- The callback invocation performed by `GoogleCalConnector.listEvents`
(lib/unical-google.js lines 73-88) once the upstream call completes. On an
upstream error the source runs `return callback(null, err)`: the error goes in
the result position and the error position stays null. When `items` is absent
it runs `callback(null, [])`; otherwise it builds the unified list and selects
with `options.raw`. (`items === 0` in the source is never true of an array, so
an empty items array takes the unified branch.) -/
def googleCalListEventsCb (ε : Type) (upstream : Except ε GListResponse)
    (options : JsOptions) (calendarId : Option String) :
    CbInvocation ε ListEventsValue :=
  match upstream with
  | .error e => { errArg := none, resArg := some (.inl e) }
  | .ok listResponse =>
      match listResponse.items with
      | none => { errArg := none, resArg := some (.inr .emptyList) }
      | some items =>
          let eventList := ListEventsValue.unified
            (items.map (fun d => transformEventV1 d { id := calendarId }))
            listResponse.nextPageToken
          { errArg := none
            resArg := some (.inr
              (if jsTruthyBool (jsGetBool options "raw") then .rawItems items
               else eventList)) }

/-! ## Watch channels (GoogleCalConnector, lib/unical-google.js) -/

/-- The channel payload Google returns from `events.watch` (`res.data`). -/
structure GChannelData where
  id : Option String := none
  resourceId : Option String := none
  resourceUri : Option String := none
  token : Option String := none
  expiration : Option Int := none
deriving DecidableEq

/-- The callback invocation of `GoogleCalConnector.watchEvents`
(lib/unical-google.js lines 215-231): on success the source runs
`callback(null, res.data)`, delivering the upstream channel payload unchanged;
on error, `callback(null, err)`. -/
def googleCalWatchEventsCb (ε : Type) (upstream : Except ε GChannelData) :
    CbInvocation ε GChannelData :=
  match upstream with
  | .error e => { errArg := none, resArg := some (.inl e) }
  | .ok data => { errArg := none, resArg := some (.inr data) }

/-- Caller-supplied params object for `GoogleCalConnector.stopWatch`. The source
reads only `params.id` and `params.resourceId`; a `channelId` property, were one
passed under the unified contract, is ignored. -/
structure StopWatchParams where
  id : Option String := none
  resourceId : Option String := none
  channelId : Option String := none
deriving DecidableEq

/-- What `GoogleCalConnector.stopWatch` does with its params. The
`validationError` constructor exists to state the spec contract; the source
(lib/unical-google.js lines 253-274) has no validation branch and no splitting
of a packed identifier: it always issues `channels.stop` with a requestBody
built from `params.id` and `params.resourceId` as given. -/
inductive StopWatchOutcome
  | validationError
  | channelsStop (id : Option String) (resourceId : Option String)
deriving DecidableEq

def googleCalStopWatchOutcome (params : StopWatchParams) : StopWatchOutcome :=
  .channelsStop params.id params.resourceId

/-! ## Credential refresh (all three connector revisions)

Dates are modelled as epoch milliseconds. `date-fns` `differenceInDays(a, b)`
is the signed number of whole days from `b` to `a`, truncated toward zero,
modelled here as truncated integer division of the millisecond difference. -/

def msPerDay : Int := 86400000

def differenceInDays (a b : Int) : Int := (a - b).tdiv msPerDay

/-- The auth object of the unified contract. `expiration_date` is carried as an
epoch-millisecond value; absence models a missing field (the source stores it
as a nonempty ISO string or Date, both truthy). -/
structure Auth where
  access_token : Option String := none
  refresh_token : Option String := none
  expiration_date : Option Int := none
deriving DecidableEq

/-- The `authObject.access_token && authObject.refresh_token &&
authObject.expiration_date` presence check shared by the validating revisions. -/
def authFieldsPresent (auth : Auth) : Bool :=
  jsTruthyStr auth.access_token && jsTruthyStr auth.refresh_token &&
    auth.expiration_date.isSome

/-- Outcome of a credential-refresh call. `validationError` models the
synchronous `Authentication object is missing properties` throw, raised before
any client is built or endpoint contacted; `unchanged` models the early return
of the caller's auth object with no notification emitted; `tokenExchange`
models proceeding to the backend token endpoint (the only outcome that
performs a network call or can emit `newAccessToken`). -/
inductive RefreshOutcome
  | validationError
  | unchanged (auth : Auth)
  | tokenExchange (refresh_token : Option String)
deriving DecidableEq

/-- `CronofyConnector._refreshTokenIfNeeded` (lib/unical-cronofy.js lines
486-514): validate the three fields, then return the object unchanged when
`differenceInDays(new Date(), new Date(expiration_date)) <= 1`, else exchange
the refresh token. -/
def cronofyRefreshOutcome (auth : Auth) (now : Int) : RefreshOutcome :=
  if !(authFieldsPresent auth) then .validationError
  else if differenceInDays now (auth.expiration_date.getD 0) ≤ 1 then .unchanged auth
  else .tokenExchange auth.refresh_token

/-- The later `GoogleConnector._refreshTokenIfNeeded` revision (lines 478-513
of that file): validate the three fields, then return the object unchanged when
`differenceInDays(new Date(auth.expiration_date), new Date()) <= 1`, else
exchange the refresh token via `refreshAccessToken`. -/
def googleRefreshOutcome (auth : Auth) (now : Int) : RefreshOutcome :=
  if !(authFieldsPresent auth) then .validationError
  else if differenceInDays (auth.expiration_date.getD 0) now ≤ 1 then .unchanged auth
  else .tokenExchange auth.refresh_token

/-- `GoogleCalConnector.refreshAuthCredentials` (lib/unical-google.js lines
370-393): no field validation at all. When `auth.access_token` is truthy and
`expiration_date` is absent or in the future, the auth object is returned
unchanged; in every other case the source goes straight to
`oauth2Client.refreshAccessToken` — the token endpoint — even when
`access_token` or `refresh_token` is missing. -/
def googleCalV1RefreshOutcome (auth : Auth) (now : Int) : RefreshOutcome :=
  if jsTruthyStr auth.access_token &&
      (!auth.expiration_date.isSome || decide (now < auth.expiration_date.getD 0)) then
    .unchanged auth
  else
    .tokenExchange auth.refresh_token

/-! ## Concrete payloads used by the claim theorems -/

def sampleGoogleEvent : GoogleEvent :=
  { id := some "ev-0", summary := some "standup", status := some "confirmed" }

def videoConferenceData : GConferenceData :=
  { entryPoints := some
      [{ entryPointType := some "video", uri := some "https://meet.example/abc" }] }

def gEventNoAttendees : GoogleEvent :=
  { id := some "ev-1"
    organizer := some { email := some "org@example.com", displayName := some "Org" } }

def cEventNoAttendees : CronofyEvent :=
  { event_uid := some "uid-1"
    organizer := some { email := some "org@example.com" }
    options := some
      { delete := some true, update := some true, change_participation_status := some true } }

def authValid3Days : Auth :=
  { access_token := some "at", refresh_token := some "rt"
    expiration_date := some (3 * msPerDay) }

def authMissingAccess : Auth :=
  { refresh_token := some "rt", expiration_date := some msPerDay }

def gEventDistinctEnd : GoogleEvent :=
  { id := some "ev-2"
    start := some { dateTime := some "2024-05-01T10:00:00Z" }
    «end» := some { dateTime := some "2024-05-01T11:00:00Z" } }

def allDayEvent : GoogleEvent :=
  { id := some "ev-3"
    start := some { date := some "2024-05-01" }
    «end» := some { date := some "2024-05-02" } }

def channelAB : GChannelData := { id := some "A", resourceId := some "B" }

/-! ## Claim theorems C2-C10 -/

/-- C2: the claim says `options.raw = true` bypasses the field mapper and
returns the upstream payload verbatim. On `GoogleCalConnector.getEvent` the
source selects on the never-set property `options.rax`, so a call with
`{ raw: true }` still returns the unified shape, not the raw record. -/
theorem C2_raw_flag_ignored :
    googleCalGetEventResult [("raw", true)] sampleGoogleEvent (some "cal-1") =
      .unified (transformEventV1 sampleGoogleEvent { id := some "cal-1" }) ∧
    googleCalGetEventResult [("raw", true)] sampleGoogleEvent (some "cal-1") ≠
      .raw sampleGoogleEvent := by
  decide

/-- C3: the claim says the mapped `meeting_url` is the uri of the first
video-type conference entry point. The source's `forEach` discards the early
return, so the extraction yields null on every input, including a conference
payload whose first entry point is a video endpoint; the spec-modelled intended
extraction returns that uri. -/
theorem C3_conference_url_defect :
    parseConferenceUrlFromConferenceData (some videoConferenceData) = none ∧
    parseConferenceUrlIntended (some videoConferenceData) =
      some "https://meet.example/abc" ∧
    ∀ conferenceData, parseConferenceUrlFromConferenceData conferenceData = none :=
  ⟨rfl, rfl, fun _ => rfl⟩

/-- C4: the claim says every backend's event mapper yields `attendees = []`
when the native field is missing, never undefined, never throwing. On an event
with no `attendees` field, `GoogleCalConnector._transformEvent` propagates the
absence (`attendees: undefined`), and `CronofyConnector._transformEvent`
throws a TypeError (`data.attendees.map` on undefined; its `|| []` is dead
code). Only the later `GoogleConnector` revision produces `[]`. -/
theorem C4_missing_attendees :
    (transformEventV1 gEventNoAttendees { id := some "cal-1" }).attendees = none ∧
    cronofyTransformEvent cEventNoAttendees = .error .typeError ∧
    (transformEventV2 gEventNoAttendees { id := some "cal-1" } none).attendees = [] :=
  ⟨rfl, rfl, rfl⟩

/-- C5: the claim says a non-expiring auth object is returned unchanged and the
token endpoint is contacted only when the remaining time is at or below the
threshold. On an auth object with three full days remaining, the later
`GoogleConnector._refreshTokenIfNeeded` revision proceeds to the token
exchange (its `differenceInDays(expiration, now) <= 1` test is inverted: it
returns unchanged exactly when at most one day remains, expired tokens
included), while the Cronofy and GoogleCalConnector revisions return the
object unchanged as the claim requires. -/
theorem C5_google_refresh_inverted :
    googleRefreshOutcome authValid3Days 0 = .tokenExchange (some "rt") ∧
    cronofyRefreshOutcome authValid3Days 0 = .unchanged authValid3Days ∧
    googleCalV1RefreshOutcome authValid3Days 0 = .unchanged authValid3Days := by
  decide

/-- C6 counterexample: the claim says every backend raises ValidationError on
an auth object missing a required field. `GoogleCalConnector.refreshAuthCredentials`
performs no validation: on an auth object with no `access_token` it proceeds
directly to the token endpoint instead of failing with ValidationError. -/
theorem C6_counterexample :
    googleCalV1RefreshOutcome authMissingAccess 0 = .tokenExchange (some "rt") ∧
    googleCalV1RefreshOutcome authMissingAccess 0 ≠ .validationError := by
  decide

/-- C6 (amended): on the validating revisions — `CronofyConnector` and the
later `GoogleConnector` — an auth object missing any of `access_token`,
`refresh_token`, `expiration_date` fails with ValidationError, raised before
any token-endpoint contact (the `tokenExchange` outcome is the only one that
touches the network, and the validation branch precedes it). -/
theorem C6_validating_revisions (auth : Auth) (now : Int)
    (h : auth.access_token = none ∨ auth.refresh_token = none ∨
      auth.expiration_date = none) :
    cronofyRefreshOutcome auth now = .validationError ∧
    googleRefreshOutcome auth now = .validationError := by
  have hp : authFieldsPresent auth = false := by
    rcases h with h | h | h <;> simp [authFieldsPresent, h, jsTruthyStr]
  exact ⟨by simp [cronofyRefreshOutcome, hp], by simp [googleRefreshOutcome, hp]⟩

theorem C6_validating_revisions_witness :
    cronofyRefreshOutcome { refresh_token := some "rt", expiration_date := some 0 } 0 =
      .validationError ∧
    googleRefreshOutcome { refresh_token := some "rt", expiration_date := some 0 } 0 =
      .validationError :=
  C6_validating_revisions { refresh_token := some "rt", expiration_date := some 0 } 0
    (Or.inl rfl)

/-- C7: the claim says the unified `end` comes from the native `end` field
(timestamp preferred, date fallback). In the later `GoogleConnector` revision
both ternaries read the native `start`, so on an event whose start and end
timestamps differ the mapped `end` equals the start timestamp, not the end
timestamp. The earlier `GoogleCalConnector` revision does read the native
`end`, but has no date-only fallback at all: an all-day event maps to
`start = undefined`. -/
theorem C7_end_copied_from_start :
    (transformEventV2 gEventDistinctEnd { id := some "cal-1" } none).«end» =
      some "2024-05-01T10:00:00Z" ∧
    (transformEventV2 gEventDistinctEnd { id := some "cal-1" } none).«end» ≠
      gEventDistinctEnd.«end».bind GDateTime.dateTime ∧
    (transformEventV1 gEventDistinctEnd { id := some "cal-1" }).«end» =
      some "2024-05-01T11:00:00Z" ∧
    (transformEventV1 allDayEvent { id := some "cal-1" }).start = none := by
  decide

/-- C8 counterexample: the claim says a created channel with id `A` and
resource id `B` is delivered as a single packed channelId and that a malformed
packed id makes stop-watch fail with ValidationError. The source delivers the
upstream two-identifier channel payload unchanged, and `stopWatch` given a
delimiter-free `channelId` does not raise ValidationError. -/
theorem C8_counterexample :
    googleCalWatchEventsCb String (.ok channelAB) =
      { errArg := none, resArg := some (.inr channelAB) } ∧
    googleCalStopWatchOutcome { channelId := some "AB" } ≠ .validationError := by
  decide

/-- C8 (amended): no watch-channel packing exists in the direct-provider
connector. `watchEvents` delivers the upstream channel payload unchanged, with
`id` and `resourceId` as separate fields, and `stopWatch` consumes `params.id`
and `params.resourceId` directly, issuing `channels.stop` and never raising
ValidationError for any params. -/
theorem C8_no_packing (ε : Type) (data : GChannelData) (params : StopWatchParams) :
    googleCalWatchEventsCb ε (.ok data) =
      { errArg := none, resArg := some (.inr data) } ∧
    googleCalStopWatchOutcome params = .channelsStop params.id params.resourceId ∧
    googleCalStopWatchOutcome params ≠ .validationError := by
  refine ⟨rfl, rfl, ?_⟩
  simp [googleCalStopWatchOutcome]

/-- C9: the claim says upstream errors are delivered in the error position of
the error-first callback, never in the success-result position. On an upstream
failure, `GoogleCalConnector.listEvents` invokes `callback(null, err)`: the
error position is null and the error value occupies the result position. The
sole normalization — an absent items field becoming an empty list — does hold. -/
theorem C9_error_in_result_position :
    googleCalListEventsCb String (.error "upstream failure") [] none =
      { errArg := none, resArg := some (.inl "upstream failure") } ∧
    googleCalListEventsCb String (.ok { items := none }) [] none =
      { errArg := none, resArg := some (.inr .emptyList) } := by
  decide

/-- C10: the direct-provider event mapper emits fixed values regardless of the
native event: `participation_status` is always `needs_action`, `recurring`
always false, `categories` always empty, and the three permission booleans
always true — in both Google revisions, so these output fields carry no
information from the input. -/
theorem C10_constant_fields (e1 e2 : GoogleEvent) (c1 c2 : GCalendarRef)
    (p1 p2 : Option String) :
    (transformEventV2 e1 c1 p1).participation_status = "needs_action" ∧
    (transformEventV2 e1 c1 p1).recurring = false ∧
    (transformEventV2 e1 c1 p1).categories = [] ∧
    (transformEventV2 e1 c1 p1).options =
      { delete := true, update := true, change_participation_status := true } ∧
    (transformEventV2 e1 c1 p1).participation_status =
      (transformEventV2 e2 c2 p2).participation_status ∧
    (transformEventV2 e1 c1 p1).recurring = (transformEventV2 e2 c2 p2).recurring ∧
    (transformEventV2 e1 c1 p1).categories = (transformEventV2 e2 c2 p2).categories ∧
    (transformEventV2 e1 c1 p1).options = (transformEventV2 e2 c2 p2).options ∧
    (transformEventV1 e1 c1).participation_status = "needs_action" ∧
    (transformEventV1 e1 c1).recurring = false ∧
    (transformEventV1 e1 c1).categories = [] ∧
    (transformEventV1 e1 c1).options =
      { delete := true, update := true, change_participation_status := true } :=
  ⟨rfl, rfl, rfl, rfl, rfl, rfl, rfl, rfl, rfl, rfl, rfl, rfl⟩
